import Mathlib

/-!
Verification of the training-loop orchestrator in
`src/src/trainers/trainer.py` (class `Trainer`).

The Python code is shallowly embedded: Python `int` is `ℤ`, Python `float`
is modelled as an exact real (`ℝ`) where the cosine schedule forces
transcendental arithmetic and as `ℚ` where the code is purely rational,
and Python runtime exceptions (`TypeError`, `AttributeError`,
`ZeroDivisionError`, `AssertionError`) are modelled with `Except`.
-/

/-- Runtime exceptions that the embedded Python code can raise. -/
inductive PyErr where
  | typeError : PyErr
  | attributeError : PyErr
  | zeroDivisionError : PyErr
  | assertionError : PyErr
deriving DecidableEq, Repr

/-- Python `range(n)` as a list of integers: `[0, 1, ..., n-1]`, empty for
`n ≤ 0`. -/
def pyRange (n : ℤ) : List ℤ :=
  (List.range n.toNat).map (fun i : ℕ => (i : ℤ))

/-- Values a `for` statement may be asked to iterate over in `Trainer.train`:
a plain `int` (line 127 iterates over `self.n_epochs`) or a `range` object
(line 130 iterates over `range(self.max_iters)`). -/
inductive PyIterable where
  | intVal : ℤ → PyIterable
  | rangeVal : ℤ → PyIterable

/-- The sequence of loop-variable values produced by a Python `for` statement:
iterating over an `int` raises `TypeError` (an `int` object is not iterable);
iterating over `range(n)` yields `0, ..., n-1`. -/
def pyForTargets : PyIterable → Except PyErr (List ℤ)
  | .intVal _ => Except.error PyErr.typeError
  | .rangeVal n => Except.ok (pyRange n)

/-- Nested-loop index order: for each epoch value, all iteration values. -/
def nestedLoop (epochs iters : List ℤ) : List (ℤ × ℤ) :=
  epochs.foldl (fun acc e => acc ++ iters.map (fun i => (e, i))) []

/-- The `(epoch, iteration)` index trace of `Trainer.train`
(`trainer.py` lines 127-130):
`for e in self.n_epochs:` followed by `for iter in range(self.max_iters):`.
The outer statement iterates over the integer `self.n_epochs` itself,
not over `range(self.n_epochs)`. -/
def train_loop_indices (n_epochs max_iters : ℤ) : Except PyErr (List (ℤ × ℤ)) := do
  let epochs ← pyForTargets (PyIterable.intVal n_epochs)
  let iters ← pyForTargets (PyIterable.rangeVal max_iters)
  return nestedLoop epochs iters

/-- The learning-rate configuration held by `Trainer`
(`warmup_iters`, `max_iters`, `max_lr`, `min_lr`). -/
structure LrCfg where
  warmup_iters : ℤ
  max_iters : ℤ
  max_lr : ℝ
  min_lr : ℝ

/-- `decay_ratio` from `Trainer._get_lr` (line 222):
`(iter - self.warmup_iters) / (self.max_iters - self.warmup_iters)`. -/
noncomputable def decay_ratio (cfg : LrCfg) (iter : ℤ) : ℝ :=
  ((iter - cfg.warmup_iters : ℤ) : ℝ) / ((cfg.max_iters - cfg.warmup_iters : ℤ) : ℝ)

/-- `Trainer._get_lr` (lines 209-228), with Python division-by-zero and the
`assert 0 <= decay_ratio <= 1` statement made explicit as `Except` errors:

* `iter < warmup_iters`: return `max_lr * (iter + 1) / warmup_iters`;
* `iter > max_iters`: return `min_lr`;
* otherwise: cosine decay `min_lr + coeff * (max_lr - min_lr)` with
  `coeff = 0.5 * (1 + cos (pi * decay_ratio))`. -/
noncomputable def get_lr (cfg : LrCfg) (iter : ℤ) : Except PyErr ℝ :=
  if iter < cfg.warmup_iters then
    if cfg.warmup_iters = 0 then Except.error PyErr.zeroDivisionError
    else Except.ok (cfg.max_lr * ((iter + 1 : ℤ) : ℝ) / ((cfg.warmup_iters : ℤ) : ℝ))
  else if cfg.max_iters < iter then Except.ok cfg.min_lr
  else if cfg.max_iters - cfg.warmup_iters = 0 then Except.error PyErr.zeroDivisionError
  else if 0 ≤ decay_ratio cfg iter ∧ decay_ratio cfg iter ≤ 1 then
    Except.ok (cfg.min_lr +
      (0.5 * (1 + Real.cos (Real.pi * decay_ratio cfg iter))) * (cfg.max_lr - cfg.min_lr))
  else Except.error PyErr.assertionError

/-- Attribute lookup for learning-rate methods on `Trainer`: the class defines
the schedule under the name `_get_lr` and under no other name; looking up any
other attribute name for it yields nothing. -/
noncomputable def trainer_lr_attr (cfg : LrCfg) (attr_name : String) :
    Option (ℤ → Except PyErr ℝ) :=
  if attr_name = "_get_lr" then some (get_lr cfg) else none

/-- Observable effects of one micro-step pass over the body of the iteration
loop in `Trainer.train` (lines 134-149): the values assigned to
`require_backward_grad_sync`, the scalars on which `backward()` is called,
and the running value of `accumulated_loss`. -/
structure IterationTrace where
  sync_flags : List Bool
  backward_losses : List ℚ
  accumulated_loss : ℚ
deriving DecidableEq, Repr

/-- One micro-step of the gradient-accumulation loop
(`trainer.py` lines 137-149), given the forward loss `L micro_iter` that the
micro-batch produces: when `use_ddp`, assign
`require_backward_grad_sync = (micro_iter == grad_accum_iters - 1)`; scale the
loss by `1 / grad_accum_iters`; add the scaled value to `accumulated_loss`;
call `backward()` on the scaled value. -/
def micro_step (use_ddp : Bool) (grad_accum_iters : ℤ) (L : ℤ → ℚ)
    (tr : IterationTrace) (micro_iter : ℤ) : IterationTrace :=
  let tr1 := if use_ddp then
      { tr with sync_flags := tr.sync_flags ++ [decide (micro_iter = grad_accum_iters - 1)] }
    else tr
  let loss := L micro_iter / (grad_accum_iters : ℚ)
  { tr1 with
      backward_losses := tr1.backward_losses ++ [loss],
      accumulated_loss := tr1.accumulated_loss + loss }

/-- The gradient-accumulation portion of one iteration of `Trainer.train`
(lines 134-149): `accumulated_loss = 0.0` rebinds the accumulator to zero,
discarding `prev_accumulated_loss` from the previous iteration, then
`for micro_iter in range(self.grad_accum_iters)` runs the micro-steps. -/
def iteration_body (use_ddp : Bool) (grad_accum_iters : ℤ) (L : ℤ → ℚ)
    (prev_accumulated_loss : ℚ) : IterationTrace :=
  (pyRange grad_accum_iters).foldl (micro_step use_ddp grad_accum_iters L)
    { sync_flags := [], backward_losses := [], accumulated_loss := 0 }

/-- A model parameter as seen by `Trainer._get_optimizer`: its name, its
`requires_grad` flag and its tensor rank `dim()`. -/
structure Param where
  name : String
  requires_grad : Bool
  dim : ℕ
deriving DecidableEq, Repr

/-- An optimizer parameter group: a `params` list and a `weight_decay` value. -/
structure ParamGroup where
  params : List Param
  weight_decay : ℚ
deriving DecidableEq, Repr

/-- Line 240-241 of `Trainer._get_optimizer`: restrict the named parameters to
those with `requires_grad`. -/
def trainable_params (ps : List Param) : List Param :=
  ps.filter (fun p => p.requires_grad)

/-- Line 245: `decay_params = [p for n, p in param_dict.items() if p.dim() >= 2]`. -/
def decay_params (ps : List Param) : List Param :=
  (trainable_params ps).filter (fun p => decide (2 ≤ p.dim))

/-- Line 246: `nodecay_params = [p for n, p in param_dict.items() if p.dim() < 2]`. -/
def nodecay_params (ps : List Param) : List Param :=
  (trainable_params ps).filter (fun p => decide (p.dim < 2))

/-- Lines 248-251: the two optimizer groups handed to `torch.optim.AdamW`,
the decay group with the given `weight_decay` and the no-decay group with
`weight_decay = 0.0`. -/
def optim_groups (ps : List Param) (weight_decay : ℚ) : List ParamGroup :=
  [{ params := decay_params ps, weight_decay := weight_decay },
   { params := nodecay_params ps, weight_decay := 0 }]

/-- `Trainer.adjust_optimizer_lr` (lines 182-187): evaluates `self.get_lr(iter)`
(note: the attribute named `get_lr`, which `Trainer` does not define) and, had
that lookup succeeded, would write the result into `param_group` of
the optimizer (modelled by the list of per-group learning rates) and return it. -/
noncomputable def adjust_optimizer_lr (cfg : LrCfg) (param_group_lrs : List ℝ)
    (iter : ℤ) : Except PyErr (List ℝ × ℝ) :=
  match trainer_lr_attr cfg "get_lr" with
  | none => Except.error PyErr.attributeError
  | some f => do
      let lr ← f iter
      return (param_group_lrs.map (fun _ => lr), lr)

/-! ## Helper lemmas -/

/-- Closed form of a left fold of `micro_step` started from any trace. -/
theorem foldl_micro_step (use_ddp : Bool) (g : ℤ) (L : ℤ → ℚ) (l : List ℤ)
    (tr : IterationTrace) :
    l.foldl (micro_step use_ddp g L) tr =
      { sync_flags :=
          tr.sync_flags ++ (if use_ddp then l.map (fun m => decide (m = g - 1)) else []),
        backward_losses := tr.backward_losses ++ l.map (fun m => L m / (g : ℚ)),
        accumulated_loss := tr.accumulated_loss + (l.map (fun m => L m / (g : ℚ))).sum } := by
  induction l generalizing tr with
  | nil =>
    cases tr
    cases use_ddp <;> simp
  | cons a l ih =>
    rw [List.foldl_cons, ih]
    cases use_ddp <;> simp [micro_step] <;> ring

/-- Sum over `List.range` equals the sum over `Finset.range`. -/
theorem sum_map_list_range (n : ℕ) (f : ℕ → ℚ) :
    ((List.range n).map f).sum = ∑ i ∈ Finset.range n, f i := by
  induction n with
  | zero => simp
  | succ k ih => rw [List.range_succ, Finset.sum_range_succ] ; simp [ih]

/-- Sum of a map over `pyRange` as a `Finset.range` sum. -/
theorem sum_map_pyRange (g : ℤ) (f : ℤ → ℚ) :
    ((pyRange g).map f).sum = ∑ i ∈ Finset.range g.toNat, f (i : ℤ) := by
  rw [pyRange, List.map_map, sum_map_list_range]
  rfl

/-! ## Claims -/

/-- C1: the claim says `Trainer.train` runs the epoch loop exactly `n_epochs`
times and the iteration loop `max_iters` times per epoch. The code instead
iterates directly over the integer `self.n_epochs` (line 127,
`for e in self.n_epochs:`), which raises `TypeError` before any epoch runs:
the loop trace is an error for every configuration. -/
theorem train_epoch_loop_type_fault (n_epochs max_iters : ℤ) :
    train_loop_indices n_epochs max_iters = Except.error PyErr.typeError := rfl

/-- C2: the claim says every iteration computes the scheduled learning rate and
writes it into every optimizer parameter group before the optimizer step. The
code of `Trainer.adjust_optimizer_lr` calls `self.get_lr(iter)`, but the class
defines the schedule only under the name `_get_lr`, so the call raises
`AttributeError` on every iteration and no parameter group is updated. -/
theorem adjust_optimizer_lr_attribute_fault (cfg : LrCfg) (param_group_lrs : List ℝ)
    (iter : ℤ) :
    adjust_optimizer_lr cfg param_group_lrs iter = Except.error PyErr.attributeError := by
  unfold adjust_optimizer_lr trainer_lr_attr
  rw [if_neg (by decide)]

/-- C3: within one iteration, each micro-batch loss `L i` is scaled by
`1 / grad_accum_iters` before `backward()` is called on it, the accumulated
loss equals `(sum of the L i) / grad_accum_iters` (a mean, not a sum), and the
accumulator starts from zero regardless of the previous iteration value. -/
theorem accumulated_loss_is_scaled_mean (use_ddp : Bool) (g : ℤ) (L : ℤ → ℚ)
    (prev : ℚ) (hg : 0 < g) :
    (iteration_body use_ddp g L prev).backward_losses
        = (pyRange g).map (fun m => L m / (g : ℚ)) ∧
    (iteration_body use_ddp g L prev).accumulated_loss
        = (∑ i ∈ Finset.range g.toNat, L (i : ℤ)) / (g : ℚ) ∧
    iteration_body use_ddp g L prev = iteration_body use_ddp g L 0 := by
  refine ⟨?_, ?_, rfl⟩
  · rw [iteration_body, foldl_micro_step]
    exact rfl
  · rw [iteration_body, foldl_micro_step]
    show (0 : ℚ) + ((pyRange g).map (fun m => L m / (g : ℚ))).sum
        = (∑ i ∈ Finset.range g.toNat, L (i : ℤ)) / (g : ℚ)
    rw [zero_add, sum_map_pyRange, Finset.sum_div]

/-- C3, witness: `grad_accum_iters = 4` with micro-batch losses
`1, 2, 3, 4`. -/
theorem accumulated_loss_is_scaled_mean_witness :
    (0 : ℤ) < 4 ∧
    ((iteration_body false 4 (fun m => (m : ℚ) + 1) 7).backward_losses
        = (pyRange 4).map (fun m => ((m : ℚ) + 1) / ((4 : ℤ) : ℚ)) ∧
     (iteration_body false 4 (fun m => (m : ℚ) + 1) 7).accumulated_loss
        = (∑ i ∈ Finset.range (4 : ℤ).toNat, (((i : ℤ) : ℚ) + 1)) / ((4 : ℤ) : ℚ) ∧
     iteration_body false 4 (fun m => (m : ℚ) + 1) 7
        = iteration_body false 4 (fun m => (m : ℚ) + 1) 0) :=
  ⟨by decide, accumulated_loss_is_scaled_mean false 4 (fun m => (m : ℚ) + 1) 7 (by decide)⟩

/-- C4: under DDP, the value assigned to `require_backward_grad_sync` on
micro-step `m` of an iteration is `decide (m = grad_accum_iters - 1)`: `false`
on micro-steps `0 .. grad_accum_iters - 2` and `true` exactly on the final
micro-step, and the flag is assigned once per micro-step. -/
theorem grad_sync_only_final_microstep (g : ℤ) (L : ℤ → ℚ) (prev : ℚ) (m : ℕ)
    (hg : 0 < g) (hm : (m : ℤ) < g) :
    (iteration_body true g L prev).sync_flags.length = g.toNat ∧
    (iteration_body true g L prev).sync_flags[m]? = some (decide ((m : ℤ) = g - 1)) := by
  have hflags : (iteration_body true g L prev).sync_flags
      = (pyRange g).map (fun x => decide (x = g - 1)) := by
    rw [iteration_body, foldl_micro_step]
    exact rfl
  have hmn : m < g.toNat := by omega
  constructor
  · rw [hflags]
    simp [pyRange]
  · rw [hflags, pyRange, List.map_map]
    rw [List.getElem?_map, List.getElem?_range hmn]
    rfl

/-- C4, witness: `grad_accum_iters = 3`; the flag is `false` on micro-step 1
and `true` on the final micro-step 2. -/
theorem grad_sync_only_final_microstep_witness :
    (0 : ℤ) < 3 ∧ ((1 : ℕ) : ℤ) < 3 ∧ ((2 : ℕ) : ℤ) < 3 ∧
    (iteration_body true 3 (fun _ => 0) 0).sync_flags[1]? = some false ∧
    (iteration_body true 3 (fun _ => 0) 0).sync_flags[2]? = some true := by
  refine ⟨by decide, by decide, by decide, ?_, ?_⟩
  · have h := (grad_sync_only_final_microstep 3 (fun _ => 0) 0 1
      (by decide) (by decide)).2
    simpa using h
  · have h := (grad_sync_only_final_microstep 3 (fun _ => 0) 0 2
      (by decide) (by decide)).2
    simpa using h

/-- C5: `Trainer._get_optimizer` restricts to parameters with `requires_grad`,
puts every trainable parameter of rank at least 2 in the decay group (with the
given `weight_decay`) and every trainable parameter of rank below 2 in the
no-decay group (with `weight_decay = 0`); the two groups partition the
trainable set with no overlap and no omission. -/
theorem optimizer_param_partition (ps : List Param) (wd : ℚ) :
    ∃ gd gn : ParamGroup, optim_groups ps wd = [gd, gn] ∧
      gd.weight_decay = wd ∧ gn.weight_decay = 0 ∧
      (∀ p : Param, p ∈ trainable_params ps ↔ p ∈ ps ∧ p.requires_grad = true) ∧
      (∀ p : Param, p ∈ gd.params ↔ p ∈ trainable_params ps ∧ 2 ≤ p.dim) ∧
      (∀ p : Param, p ∈ gn.params ↔ p ∈ trainable_params ps ∧ p.dim < 2) ∧
      (∀ p : Param, ¬(p ∈ gd.params ∧ p ∈ gn.params)) ∧
      (gd.params ++ gn.params).Perm (trainable_params ps) := by
  refine ⟨_, _, rfl, rfl, rfl, ?_, ?_, ?_, ?_, ?_⟩
  · intro p
    simp [trainable_params, List.mem_filter]
  · intro p
    simp [decay_params, List.mem_filter]
  · intro p
    simp [nodecay_params, List.mem_filter]
  · rintro p ⟨hp1, hp2⟩
    simp only [decay_params, nodecay_params, List.mem_filter,
      decide_eq_true_eq] at hp1 hp2
    omega
  · show (decay_params ps ++ nodecay_params ps).Perm (trainable_params ps)
    have h : nodecay_params ps
        = (trainable_params ps).filter (fun p => !decide (2 ≤ p.dim)) := by
      rw [nodecay_params]
      apply List.filter_congr
      intro x _
      rw [← decide_not]
      exact decide_eq_decide.mpr (by omega)
    rw [h]
    exact List.filter_append_perm _ _

/-- C6: in the warmup phase (`iter < warmup_iters`) the schedule returns
`max_lr * (iter + 1) / warmup_iters`; the returned rate is strictly increasing
across the warmup range, and the rate at iteration 0 is strictly positive. -/
theorem warmup_lr_linear_increasing_positive (cfg : LrCfg) (i j : ℤ)
    (hw : 0 < cfg.warmup_iters) (hmax : 0 < cfg.max_lr)
    (hi : 0 ≤ i) (hij : i < j) (hj : j < cfg.warmup_iters) :
    get_lr cfg i = Except.ok (cfg.max_lr * ((i + 1 : ℤ) : ℝ) / ((cfg.warmup_iters : ℤ) : ℝ)) ∧
    get_lr cfg j = Except.ok (cfg.max_lr * ((j + 1 : ℤ) : ℝ) / ((cfg.warmup_iters : ℤ) : ℝ)) ∧
    cfg.max_lr * ((i + 1 : ℤ) : ℝ) / ((cfg.warmup_iters : ℤ) : ℝ)
      < cfg.max_lr * ((j + 1 : ℤ) : ℝ) / ((cfg.warmup_iters : ℤ) : ℝ) ∧
    get_lr cfg 0 = Except.ok (cfg.max_lr * ((0 + 1 : ℤ) : ℝ) / ((cfg.warmup_iters : ℤ) : ℝ)) ∧
    0 < cfg.max_lr * ((0 + 1 : ℤ) : ℝ) / ((cfg.warmup_iters : ℤ) : ℝ) := by
  have hwne : cfg.warmup_iters ≠ 0 := by omega
  have hwR : (0 : ℝ) < ((cfg.warmup_iters : ℤ) : ℝ) := by exact_mod_cast hw
  have hbranch : ∀ k : ℤ, k < cfg.warmup_iters →
      get_lr cfg k
        = Except.ok (cfg.max_lr * ((k + 1 : ℤ) : ℝ) / ((cfg.warmup_iters : ℤ) : ℝ)) := by
    intro k hk
    rw [get_lr, if_pos hk, if_neg hwne]
  refine ⟨hbranch i (by omega), hbranch j hj, ?_, hbranch 0 hw, ?_⟩
  · rw [div_lt_div_iff₀ hwR hwR]
    have hc : ((i + 1 : ℤ) : ℝ) < ((j + 1 : ℤ) : ℝ) := by exact_mod_cast by omega
    have h1 : cfg.max_lr * ((i + 1 : ℤ) : ℝ) < cfg.max_lr * ((j + 1 : ℤ) : ℝ) :=
      mul_lt_mul_of_pos_left hc hmax
    exact mul_lt_mul_of_pos_right h1 hwR
  · have h1 : ((0 + 1 : ℤ) : ℝ) = 1 := by norm_num
    rw [h1, mul_one]
    exact div_pos hmax hwR

/-- C6, witness: configuration `warmup_iters = 2`, `max_iters = 10`,
`max_lr = 0.1`, `min_lr = 0.01`, at warmup iterations 0 and 1. -/
theorem warmup_lr_linear_increasing_positive_witness :
    (0 : ℤ) < 2 ∧ (0 : ℝ) < 0.1 ∧ (0 : ℤ) ≤ 0 ∧ (0 : ℤ) < 1 ∧ (1 : ℤ) < 2 ∧
    (get_lr ⟨2, 10, 0.1, 0.01⟩ 0
        = Except.ok (0.1 * ((0 + 1 : ℤ) : ℝ) / ((2 : ℤ) : ℝ)) ∧
     get_lr ⟨2, 10, 0.1, 0.01⟩ 1
        = Except.ok (0.1 * ((1 + 1 : ℤ) : ℝ) / ((2 : ℤ) : ℝ)) ∧
     0.1 * ((0 + 1 : ℤ) : ℝ) / ((2 : ℤ) : ℝ) < 0.1 * ((1 + 1 : ℤ) : ℝ) / ((2 : ℤ) : ℝ) ∧
     get_lr ⟨2, 10, 0.1, 0.01⟩ 0
        = Except.ok (0.1 * ((0 + 1 : ℤ) : ℝ) / ((2 : ℤ) : ℝ)) ∧
     (0 : ℝ) < 0.1 * ((0 + 1 : ℤ) : ℝ) / ((2 : ℤ) : ℝ)) :=
  ⟨by decide, by norm_num, by decide, by decide, by decide,
   warmup_lr_linear_increasing_positive ⟨2, 10, 0.1, 0.01⟩ 0 1
     (by decide) (by norm_num) (by decide) (by decide) (by decide)⟩

/-- C7: with `warmup_iters < max_iters`, iteration `warmup_iters` takes the
decay branch with `decay_ratio = 0` and the schedule returns exactly `max_lr`,
so warmup and decay are continuous at the boundary. -/
theorem lr_continuous_at_warmup_boundary (cfg : LrCfg)
    (h : cfg.warmup_iters < cfg.max_iters) :
    decay_ratio cfg cfg.warmup_iters = 0 ∧
    get_lr cfg cfg.warmup_iters = Except.ok cfg.max_lr := by
  have hratio : decay_ratio cfg cfg.warmup_iters = 0 := by
    rw [decay_ratio]
    simp
  refine ⟨hratio, ?_⟩
  rw [get_lr, if_neg (lt_irrefl _), if_neg (by omega), if_neg (by omega),
      if_pos (by rw [hratio] ; norm_num)]
  congr 1
  rw [hratio, mul_zero, Real.cos_zero]
  ring

/-- C7, witness: with `warmup_iters = 2` and `max_iters = 10`, the schedule at
iteration 2 has ratio 0 and returns `max_lr = 0.1`. -/
theorem lr_continuous_at_warmup_boundary_witness :
    (2 : ℤ) < 10 ∧
    (decay_ratio ⟨2, 10, 0.1, 0.01⟩ 2 = 0 ∧
     get_lr ⟨2, 10, 0.1, 0.01⟩ 2 = Except.ok 0.1) :=
  ⟨by decide, lr_continuous_at_warmup_boundary ⟨2, 10, 0.1, 0.01⟩ (by decide)⟩

/-- C8: end-to-end scenario `warmup_iters = 2`, `max_iters = 10`,
`max_lr = 0.1`, `min_lr = 0.01`: the schedule returns `0.05` at iteration 0,
`0.1` at iterations 1 and 2, and `0.01` at iteration 10. -/
theorem lr_end_to_end_scenario :
    get_lr ⟨2, 10, 0.1, 0.01⟩ 0 = Except.ok 0.05 ∧
    get_lr ⟨2, 10, 0.1, 0.01⟩ 1 = Except.ok 0.1 ∧
    get_lr ⟨2, 10, 0.1, 0.01⟩ 2 = Except.ok 0.1 ∧
    get_lr ⟨2, 10, 0.1, 0.01⟩ 10 = Except.ok 0.01 := by
  refine ⟨?_, ?_, ?_, ?_⟩ <;>
  · rw [get_lr]
    norm_num [decay_ratio, Real.cos_zero, Real.cos_pi]

/-- C9: with `warmup_iters < max_iters`, whenever the decay branch is reached
(`warmup_iters ≤ iter ≤ max_iters`) the decay ratio lies in `[0, 1]` and the
schedule returns a value, so the assertion on the ratio never fires. -/
theorem decay_ratio_in_unit_interval (cfg : LrCfg) (iter : ℤ)
    (hwm : cfg.warmup_iters < cfg.max_iters)
    (h1 : cfg.warmup_iters ≤ iter) (h2 : iter ≤ cfg.max_iters) :
    0 ≤ decay_ratio cfg iter ∧ decay_ratio cfg iter ≤ 1 ∧
    ∃ v : ℝ, get_lr cfg iter = Except.ok v := by
  have hdpos : (0 : ℝ) < ((cfg.max_iters - cfg.warmup_iters : ℤ) : ℝ) := by
    exact_mod_cast by omega
  have hnum : (0 : ℝ) ≤ ((iter - cfg.warmup_iters : ℤ) : ℝ) := by
    exact_mod_cast by omega
  have h0 : 0 ≤ decay_ratio cfg iter := by
    rw [decay_ratio]
    exact div_nonneg hnum hdpos.le
  have hle : decay_ratio cfg iter ≤ 1 := by
    rw [decay_ratio, div_le_one hdpos]
    exact_mod_cast by omega
  refine ⟨h0, hle, ?_⟩
  rw [get_lr, if_neg (by omega), if_neg (by omega), if_neg (by omega),
      if_pos ⟨h0, hle⟩]
  exact ⟨_, rfl⟩

/-- C9, witness: configuration `warmup_iters = 2`, `max_iters = 10` at
iteration 5. -/
theorem decay_ratio_in_unit_interval_witness :
    (2 : ℤ) < 10 ∧ (2 : ℤ) ≤ 5 ∧ (5 : ℤ) ≤ 10 ∧
    (0 ≤ decay_ratio ⟨2, 10, 0.1, 0.01⟩ 5 ∧ decay_ratio ⟨2, 10, 0.1, 0.01⟩ 5 ≤ 1 ∧
     ∃ v : ℝ, get_lr ⟨2, 10, 0.1, 0.01⟩ 5 = Except.ok v) :=
  ⟨by decide, by decide, by decide,
   decay_ratio_in_unit_interval ⟨2, 10, 0.1, 0.01⟩ 5 (by decide) (by decide) (by decide)⟩

/-- C10: when `warmup_iters = max_iters`, evaluating the schedule at iteration
`warmup_iters` reaches the decay branch and raises `ZeroDivisionError`
(the denominator `max_iters - warmup_iters` is zero and unguarded), rather
than returning a learning rate or failing the ratio assertion. -/
theorem lr_div_by_zero_when_warmup_eq_max (cfg : LrCfg)
    (h : cfg.warmup_iters = cfg.max_iters) :
    get_lr cfg cfg.warmup_iters = Except.error PyErr.zeroDivisionError := by
  rw [get_lr, if_neg (lt_irrefl _), if_neg (by omega), if_pos (by omega)]

/-- C10, witness: `warmup_iters = max_iters = 5`. -/
theorem lr_div_by_zero_when_warmup_eq_max_witness :
    (5 : ℤ) = 5 ∧
    get_lr ⟨5, 5, 0.1, 0.01⟩ 5 = Except.error PyErr.zeroDivisionError :=
  ⟨rfl, lr_div_by_zero_when_warmup_eq_max ⟨5, 5, 0.1, 0.01⟩ rfl⟩
